import Mathlib

/-!
Shallow embedding of the order-fulfillment pipeline of the e-commerce backend:
the Product and Coupon models, the order controller (`createOrder`,
`updateOrderStatus`, `updatePaymentStatus`) and the realtime event handlers
(`handleStockChange`, `handleNewOrder`).  Monetary amounts are embedded as
exact rationals, stock quantities as integers, timestamps as integers and
Mongo ObjectIds as naturals.  All mutation is explicit state passing over a
`DB` record.
-/

namespace ECommerce

/-- orderSchema.orderStatus enum (Order.js, lines 97-101). -/
inductive OrderStatus
  | pending
  | confirmed
  | processing
  | shipped
  | delivered
  | cancelled
  | returned
deriving DecidableEq, Repr

/-- orderSchema.paymentStatus enum (Order.js, lines 91-95). -/
inductive PaymentStatus
  | pending
  | paid
  | failed
  | refunded
  | partiallyRefunded
deriving DecidableEq, Repr

/-- couponSchema.discountType enum (Coupon model). -/
inductive DiscountType
  | percentage
  | fixed
deriving DecidableEq, Repr

/-- The fields of the Product document that the order pipeline reads and
writes (Product.js: price, stock, lowStockThreshold, trackQuantity,
allowBackorder, isActive, totalSales, plus identifying data). -/
structure Product where
  id : Nat
  name : String
  sku : String
  price : ℚ
  stock : ℤ
  lowStockThreshold : ℤ
  trackQuantity : Bool
  allowBackorder : Bool
  isActive : Bool
  totalSales : ℤ
deriving DecidableEq, Repr

/-- productSchema.methods.isInStock (Product.js, lines 244-248):
if quantity is not tracked, or backorder is allowed, the product counts as
in stock; otherwise stock must be at least the requested quantity. -/
def Product.isInStock (p : Product) (quantity : ℤ) : Bool :=
  if !p.trackQuantity then true
  else if p.allowBackorder then true
  else decide (quantity ≤ p.stock)

/-- Mongoose validation of the Product document on save(): the stock field
declares min 0 (Product.js, lines 86-91), so product.save() with a negative
stock throws a validation error and commits nothing — the same mechanism as
the usageHistory validation on Coupon.save(). -/
def Product.saveValid (p : Product) : Bool :=
  decide (0 ≤ p.stock)

/-- One entry of couponSchema.usageHistory.  The schema declares `user`,
`order` and `discountAmount` required; `order` is embedded as an `Option`
because createOrder pushes it as null. -/
structure UsageEntry where
  user : Nat
  order : Option Nat
  discountAmount : ℚ
  usedAt : ℤ
deriving DecidableEq, Repr

/-- The Coupon document (Coupon model schema). -/
structure Coupon where
  code : String
  discountType : DiscountType
  discountValue : ℚ
  minimumOrderAmount : ℚ
  maximumDiscountAmount : Option ℚ
  usageLimit : Option Nat
  usageLimitPerUser : Option Nat
  usedCount : Nat
  isActive : Bool
  startDate : ℤ
  endDate : ℤ
  applicableProducts : List Nat
  applicableCategories : List Nat
  excludedProducts : List Nat
  excludedCategories : List Nat
  applicableUsers : List Nat
  usageHistory : List UsageEntry
deriving DecidableEq, Repr

/-- couponSchema.methods.isValid: active, inside the validity window, and
`(!this.usageLimit || this.usedCount < this.usageLimit)` — by JavaScript
truthiness a usageLimit of 0 behaves like an absent limit. -/
def Coupon.isValid (c : Coupon) (now : ℤ) : Bool :=
  c.isActive && decide (c.startDate ≤ now) && decide (now ≤ c.endDate) &&
    (match c.usageLimit with
     | none => true
     | some l => decide (l = 0) || decide (c.usedCount < l))

/-- couponSchema.methods.canUserUse: requires isValid; if applicableUsers is
non-empty the user must be in it; `if (this.usageLimitPerUser)` (truthy, so
a limit of 0 is skipped) the user's usageHistory count must be below it. -/
def Coupon.canUserUse (c : Coupon) (userId : Nat) (now : ℤ) : Bool :=
  if !c.isValid now then false
  else if decide (0 < c.applicableUsers.length) && !(c.applicableUsers.contains userId) then
    false
  else
    match c.usageLimitPerUser with
    | none => true
    | some l =>
      if l = 0 then true
      else decide ((c.usageHistory.filter (fun u => u.user == userId)).length < l)

/-- couponSchema.methods.calculateDiscount (orderController.js concatenated
Coupon model, lines 748-778): 0 when invalid; applicableAmount is zeroed when
product/category restrictions are configured (the narrowing is not
implemented); 0 when below minimumOrderAmount; percentage or fixed base;
`if (this.maximumDiscountAmount && discountAmount > this.maximumDiscountAmount)`
caps at the maximum only when it is truthy (nonzero); finally
`Math.min(discountAmount, applicableAmount)`. -/
def Coupon.calculateDiscount (c : Coupon) (orderAmount : ℚ) (now : ℤ) : ℚ :=
  if !c.isValid now then 0
  else
    let applicableAmount :=
      if 0 < c.applicableProducts.length ∨ 0 < c.applicableCategories.length then 0
      else orderAmount
    if applicableAmount < c.minimumOrderAmount then 0
    else
      let base :=
        match c.discountType with
        | DiscountType.percentage => applicableAmount * c.discountValue / 100
        | DiscountType.fixed => c.discountValue
      let capped :=
        match c.maximumDiscountAmount with
        | none => base
        | some m => if m ≠ 0 ∧ m < base then m else base
      min capped applicableAmount

/-- Mongoose validation of one usageHistory entry on Coupon.save(): the
schema declares `order` required, so an entry whose order is null fails. -/
def UsageEntry.saveValid (e : UsageEntry) : Bool :=
  e.order.isSome

/-- Mongoose validation of the whole usageHistory array on Coupon.save(). -/
def Coupon.saveValid (c : Coupon) : Bool :=
  c.usageHistory.all UsageEntry.saveValid

/-- The coupon mutation performed by createOrder (orderController.js, lines
74-81): increment usedCount and push a usage entry whose order is null. -/
def Coupon.recordUsage (c : Coupon) (userId : Nat) (discountAmount : ℚ) (now : ℤ) : Coupon :=
  { c with
    usedCount := c.usedCount + 1,
    usageHistory := c.usageHistory ++ [⟨userId, none, discountAmount, now⟩] }

/-- One line item of an order: the immutable snapshot captured by createOrder
(orderController.js, lines 42-50). -/
structure OrderItem where
  product : Nat
  name : String
  price : ℚ
  quantity : ℤ
  sku : String
deriving DecidableEq, Repr

/-- One entry of orderSchema.statusHistory (Order.js, lines 151-164). -/
structure HistoryEntry where
  status : OrderStatus
  timestamp : ℤ
  note : String
deriving DecidableEq, Repr

/-- The applied-coupon summary stored on the order (orderController.js,
lines 68-72). -/
structure CouponInfo where
  code : String
  discountType : DiscountType
  discountValue : ℚ
deriving DecidableEq, Repr

/-- The Order document fields touched by the pipeline (Order.js schema). -/
structure OrderRec where
  id : Nat
  user : Nat
  items : List OrderItem
  subtotal : ℚ
  taxAmount : ℚ
  shippingAmount : ℚ
  discountAmount : ℚ
  totalAmount : ℚ
  couponInfo : Option CouponInfo
  paymentStatus : PaymentStatus
  orderStatus : OrderStatus
  statusHistory : List HistoryEntry
  paymentId : Option String
  deliveredAt : Option ℤ
  cancelledAt : Option ℤ
  cancellationReason : Option String
  trackingNumber : Option String
  shippingCarrier : Option String
  notes : Option String
deriving DecidableEq, Repr

/-- Mongoose validation of one order item on Order.create (Order.js:
price min 0, quantity min 1). -/
def OrderItem.schemaOk (it : OrderItem) : Bool :=
  decide (0 ≤ it.price) && decide (1 ≤ it.quantity)

/-- Mongoose validation of the money fields on Order.create (Order.js:
subtotal, taxAmount, shippingAmount, discountAmount, totalAmount all
declare min 0). A validation failure makes Order.create throw. -/
def OrderRec.schemaOk (o : OrderRec) : Bool :=
  o.items.all OrderItem.schemaOk &&
  decide (0 ≤ o.subtotal) && decide (0 ≤ o.taxAmount) &&
  decide (0 ≤ o.shippingAmount) && decide (0 ≤ o.discountAmount) &&
  decide (0 ≤ o.totalAmount)

/-- Order.js pre-save hook (lines 188-198): when orderStatus was modified on
a non-new document, push one entry onto statusHistory.  This is document
middleware: it runs on Document.save() only, never on query updates such as
findByIdAndUpdate. -/
def orderStatusHistoryHook (o : OrderRec) (statusModified : Bool) (isNew : Bool) (now : ℤ) : OrderRec :=
  if statusModified && !isNew then
    { o with statusHistory :=
        o.statusHistory ++ [⟨o.orderStatus, now, "Order status changed"⟩] }
  else o

/-- The persistent store visible to the pipeline. -/
structure DB where
  products : List Product
  coupons : List Coupon
  orders : List OrderRec
deriving DecidableEq, Repr

/-- Product.findById. -/
def DB.findProduct (db : DB) (pid : Nat) : Option Product :=
  db.products.find? (fun p => p.id == pid)

/-- JavaScript String.prototype.toUpperCase restricted to one ASCII
character (coupon codes are 3-20 characters and stored uppercased by the
schema). -/
def upperChar (c : Char) : Char :=
  if 'a' ≤ c ∧ c ≤ 'z' then Char.ofNat (c.toNat - 32) else c

/-- `couponCode.toUpperCase()`. -/
def upperCode (s : String) : String :=
  ⟨s.data.map upperChar⟩

/-- Coupon.findOne on the uppercased code (orderController.js, line 58). -/
def DB.findCouponByCode (db : DB) (code : String) : Option Coupon :=
  db.coupons.find? (fun c => c.code == upperCode code)

/-- Order.findById. -/
def DB.findOrder (db : DB) (oid : Nat) : Option OrderRec :=
  db.orders.find? (fun o => o.id == oid)

/-- Replace a product in the store (product.save() after in-memory edits). -/
def updateProductIn (products : List Product) (p : Product) : List Product :=
  products.map (fun q => if q.id == p.id then p else q)

/-- The admin analytics event kinds emitted by realtimeEvents. -/
inductive AdminEventKind
  | newOrderEvt
  | stockUpdateEvt
  | orderStatusChangeEvt
  | paymentStatusChangeEvt
deriving DecidableEq, Repr

/-- The realtime events emitted via the websocket controller. -/
inductive Event
  | stockUpdate (productId : Nat) (stock : ℤ) (previousStock : ℤ)
      (inStock : Bool) (lowStock : Bool)
  | lowStockAlert (productId : Nat) (name : String) (stock : ℤ) (threshold : ℤ)
  | adminAnalytics (kind : AdminEventKind)
  | orderUpdate (userId : Nat) (orderId : Nat)
deriving DecidableEq, Repr

/-- handleStockChange (realtimeEvents, lines 10-38): always emit a stock
update; emit a low-stock alert exactly when
`newStock <= product.lowStockThreshold && oldStock > product.lowStockThreshold`;
always emit an admin analytics update. -/
def handleStockChange (productId : Nat) (oldStock newStock : ℤ) (p : Product) : List Event :=
  let upd := Event.stockUpdate productId newStock oldStock (p.isInStock 1)
    (decide (newStock ≤ p.lowStockThreshold))
  let alerts :=
    if newStock ≤ p.lowStockThreshold ∧ p.lowStockThreshold < oldStock then
      [Event.lowStockAlert productId p.name newStock p.lowStockThreshold]
    else []
  upd :: alerts ++ [Event.adminAnalytics AdminEventKind.stockUpdateEvt]

/-- The per-item stock loop of handleNewOrder (realtimeEvents, lines
79-90): for each line item load the product and, only when it exists and
trackQuantity is true, decrement its stock by the ordered quantity, add to
totalSales, and save.  When the decremented stock fails the min-0 schema
validation the save throws (third component true): nothing is committed for
that item, its stock events are not emitted, the loop aborts, and the throw
propagates to createOrder's catch block.  Saves of earlier items have
already committed. -/
def handleNewOrderItems (products : List Product) :
    List OrderItem → List Product × List Event × Bool
  | [] => (products, [], false)
  | it :: rest =>
    match products.find? (fun p => p.id == it.product) with
    | none => handleNewOrderItems products rest
    | some p =>
      if p.trackQuantity then
        let p2 := { p with stock := p.stock - it.quantity,
                           totalSales := p.totalSales + it.quantity }
        if p2.saveValid then
          let tail := handleNewOrderItems (updateProductIn products p2) rest
          (tail.1, handleStockChange it.product p.stock p2.stock p2 ++ tail.2.1, tail.2.2)
        else (products, [], true)
      else handleNewOrderItems products rest

/-- handleNewOrder (realtimeEvents, lines 62-91): emit the new-order admin
event, then run the per-item stock loop; the third component reports
whether a product save threw. -/
def handleNewOrder (products : List Product) (o : OrderRec) :
    List Product × List Event × Bool :=
  let r := handleNewOrderItems products o.items
  (r.1, Event.adminAnalytics AdminEventKind.newOrderEvt :: r.2.1, r.2.2)

/-- One requested item of the createOrder request body. -/
structure ReqItem where
  product : Nat
  quantity : ℤ
deriving DecidableEq, Repr

/-- The createOrder request body (plus the authenticated user). -/
structure OrderRequest where
  userId : Nat
  items : List ReqItem
  couponCode : Option String
  notes : Option String
deriving DecidableEq, Repr

/-- The observable outcome of createOrder: the 400 responses of the item
loop and the coupon check, the 500 catch-all, or the created order. -/
inductive CreateOrderOutcome
  | productNotFound (pid : Nat)
  | productUnavailable (name : String)
  | insufficientStock (name : String)
  | invalidCoupon
  | internalError
  | created (o : OrderRec)
deriving DecidableEq, Repr

/-- Persistence actions of one createOrder invocation, in program order:
a Coupon.save() call (attempted, and committed when validation passes) and
the Order.create call. -/
inductive StepAction
  | couponSaveAttempt
  | couponSaveCommit
  | orderPersist
deriving DecidableEq, Repr

/-- The full result of one createOrder invocation: outcome, the store after
the call, the emitted events, and the trace of persistence actions. -/
structure CreateResult where
  outcome : CreateOrderOutcome
  db : DB
  events : List Event
  trace : List StepAction
deriving DecidableEq, Repr

/-- The three 400 responses of the item-validation loop. -/
inductive ItemError
  | notFound (pid : Nat)
  | unavailable (name : String)
  | outOfStock (name : String)
deriving DecidableEq, Repr

/-- Map an item-loop failure to the corresponding createOrder outcome. -/
def ItemError.toOutcome : ItemError → CreateOrderOutcome
  | ItemError.notFound pid => CreateOrderOutcome.productNotFound pid
  | ItemError.unavailable n => CreateOrderOutcome.productUnavailable n
  | ItemError.outOfStock n => CreateOrderOutcome.insufficientStock n

/-- The item-validation loop of createOrder (orderController.js, lines
15-51): load each product, 400 when missing, inactive, or isInStock fails;
otherwise accumulate subtotal (price times quantity) and snapshot the line
item. -/
def buildItems (db : DB) : List ReqItem → Except ItemError (ℚ × List OrderItem)
  | [] => Except.ok (0, [])
  | it :: rest =>
    match db.findProduct it.product with
    | none => Except.error (ItemError.notFound it.product)
    | some p =>
      if !p.isActive then Except.error (ItemError.unavailable p.name)
      else if !p.isInStock it.quantity then
        Except.error (ItemError.outOfStock p.name)
      else
        match buildItems db rest with
        | Except.error e => Except.error e
        | Except.ok (sub, its) =>
          Except.ok (p.price * (it.quantity : ℚ) + sub,
            { product := p.id, name := p.name, price := p.price,
              quantity := it.quantity, sku := p.sku } :: its)

/-- `Coupon.findOneAndUpdate({code, "usageHistory.order": null},
{$set: {"usageHistory.$.order": order._id}})` (orderController.js, lines
106-111): set the first usage entry with a null order to the new order id. -/
def setFirstNullOrderEntry : List UsageEntry → Nat → List UsageEntry
  | [], _ => []
  | e :: rest, oid =>
    if e.order.isNone then { e with order := some oid } :: rest
    else e :: setFirstNullOrderEntry rest oid

/-- Apply the usage-history order-id fixup to the matching coupon. -/
def couponOrderIdFixup (coupons : List Coupon) (code : String) (oid : Nat) : List Coupon :=
  coupons.map (fun c =>
    if c.code == upperCode code && c.usageHistory.any (fun e => e.order.isNone) then
      { c with usageHistory := setFirstNullOrderEntry c.usageHistory oid }
    else c)

/-- The tail of createOrder after coupon handling (orderController.js, lines
84-123): taxAmount and shippingAmount are 0, totalAmount is
subtotal + tax + shipping - discount, Order.create persists the order in
pending/pending with an empty status history (the pre-save hook skips new
documents), the coupon order-id fixup runs when a coupon was applied, and
handleNewOrder decrements stock and emits events.  A schema-validation
failure in Order.create throws into the catch block (500).  A product-save
validation failure inside handleNewOrder also throws into the catch block
(500), but only after the order has been persisted: the order record and the
product saves committed before the failure remain. -/
def finishOrder (db : DB) (req : OrderRequest) (newOrderId : Nat)
    (subtotal : ℚ) (orderItems : List OrderItem) (discountAmount : ℚ)
    (couponInfo : Option CouponInfo) (couponCode : Option String)
    (trace : List StepAction) : CreateResult :=
  let taxAmount : ℚ := 0
  let shippingAmount : ℚ := 0
  let totalAmount := subtotal + taxAmount + shippingAmount - discountAmount
  let order : OrderRec :=
    { id := newOrderId, user := req.userId, items := orderItems,
      subtotal := subtotal, taxAmount := taxAmount, shippingAmount := shippingAmount,
      discountAmount := discountAmount, totalAmount := totalAmount,
      couponInfo := couponInfo, paymentStatus := PaymentStatus.pending,
      orderStatus := OrderStatus.pending, statusHistory := [], paymentId := none,
      deliveredAt := none, cancelledAt := none, cancellationReason := none,
      trackingNumber := none, shippingCarrier := none, notes := req.notes }
  if !order.schemaOk then
    { outcome := CreateOrderOutcome.internalError, db := db, events := [], trace := trace }
  else
    let coupons2 :=
      match couponCode, couponInfo with
      | some code, some _ => couponOrderIdFixup db.coupons code newOrderId
      | _, _ => db.coupons
    let hn := handleNewOrder db.products order
    if hn.2.2 then
      { outcome := CreateOrderOutcome.internalError,
        db := { products := hn.1, coupons := coupons2, orders := db.orders ++ [order] },
        events := hn.2.1,
        trace := trace ++ [StepAction.orderPersist] }
    else
      { outcome := CreateOrderOutcome.created order,
        db := { products := hn.1, coupons := coupons2, orders := db.orders ++ [order] },
        events := hn.2.1,
        trace := trace ++ [StepAction.orderPersist] }

/-- createOrder (orderController.js, lines 7-132): validate items, then, when
a coupon code is supplied, look the coupon up, reject when missing or
canUserUse fails, compute the discount, mutate the coupon (usedCount and a
usage entry with a null order id) and save it — a validation failure there
throws into the catch block before the order is ever created — and finally
build and persist the order and fan out events. -/
def createOrder (db : DB) (req : OrderRequest) (now : ℤ) (newOrderId : Nat) : CreateResult :=
  match buildItems db req.items with
  | Except.error e => { outcome := e.toOutcome, db := db, events := [], trace := [] }
  | Except.ok pr =>
    match req.couponCode with
    | none => finishOrder db req newOrderId pr.1 pr.2 0 none none []
    | some code =>
      match db.findCouponByCode code with
      | none =>
        { outcome := CreateOrderOutcome.invalidCoupon, db := db, events := [], trace := [] }
      | some coupon =>
        if !coupon.canUserUse req.userId now then
          { outcome := CreateOrderOutcome.invalidCoupon, db := db, events := [], trace := [] }
        else
          let discountAmount := coupon.calculateDiscount pr.1 now
          let cInfo : CouponInfo :=
            { code := coupon.code, discountType := coupon.discountType,
              discountValue := coupon.discountValue }
          let coupon2 := coupon.recordUsage req.userId discountAmount now
          if !coupon2.saveValid then
            { outcome := CreateOrderOutcome.internalError, db := db, events := [],
              trace := [StepAction.couponSaveAttempt] }
          else
            let db2 : DB :=
              { db with coupons := db.coupons.map (fun c =>
                  if c.code == coupon.code then coupon2 else c) }
            finishOrder db2 req newOrderId pr.1 pr.2 discountAmount
              (some cInfo) (some code)
              [StepAction.couponSaveAttempt, StepAction.couponSaveCommit]

/-- The updateOrderStatus request body (orderController.js, line 138). -/
structure UpdateStatusRequest where
  orderStatus : OrderStatus
  trackingNumber : Option String
  shippingCarrier : Option String
  notes : Option String
deriving DecidableEq, Repr

/-- Outcome of updateOrderStatus / updatePaymentStatus. -/
inductive UpdateOutcome
  | notFound
  | updated (o : OrderRec)
deriving DecidableEq, Repr

/-- `if (x) updateData.f = x`: a truthy (present, non-empty) request string
overrides the stored value. -/
def jsStringSet (fresh : Option String) (old : Option String) : Option String :=
  match fresh with
  | none => old
  | some s => if s = "" then old else some s

/-- updateOrderStatus (orderController.js, lines 135-187): look the order up
(404 when missing), build updateData with the requested status, optional
tracking fields and notes, stamp deliveredAt / cancelledAt (and a
cancellation reason from notes) for those targets, and write through
Order.findByIdAndUpdate.  A query update runs no document middleware, so the
statusHistory pre-save hook never fires; no transition check of any kind is
performed.  Emits the user and admin events. -/
def updateOrderStatus (db : DB) (oid : Nat) (req : UpdateStatusRequest) (now : ℤ) :
    UpdateOutcome × DB × List Event :=
  match db.findOrder oid with
  | none => (UpdateOutcome.notFound, db, [])
  | some o =>
    let o2 : OrderRec :=
      { o with
        orderStatus := req.orderStatus,
        trackingNumber := jsStringSet req.trackingNumber o.trackingNumber,
        shippingCarrier := jsStringSet req.shippingCarrier o.shippingCarrier,
        notes := jsStringSet req.notes o.notes,
        deliveredAt :=
          if req.orderStatus = OrderStatus.delivered then some now else o.deliveredAt,
        cancelledAt :=
          if req.orderStatus = OrderStatus.cancelled then some now else o.cancelledAt,
        cancellationReason :=
          if req.orderStatus = OrderStatus.cancelled then
            jsStringSet req.notes o.cancellationReason
          else o.cancellationReason }
    let db2 : DB := { db with orders := db.orders.map (fun x => if x.id == oid then o2 else x) }
    (UpdateOutcome.updated o2, db2,
      [Event.orderUpdate o2.user o2.id,
       Event.adminAnalytics AdminEventKind.orderStatusChangeEvt])

/-- updatePaymentStatus (orderController.js, lines 190-226): look the order
up (404 when missing) and write the requested payment status and payment id
through findByIdAndUpdate, with no transition check.  Emits the user and
admin events. -/
def updatePaymentStatus (db : DB) (oid : Nat) (newStatus : PaymentStatus)
    (paymentId : Option String) : UpdateOutcome × DB × List Event :=
  match db.findOrder oid with
  | none => (UpdateOutcome.notFound, db, [])
  | some o =>
    let o2 : OrderRec := { o with paymentStatus := newStatus, paymentId := paymentId }
    let db2 : DB := { db with orders := db.orders.map (fun x => if x.id == oid then o2 else x) }
    (UpdateOutcome.updated o2, db2,
      [Event.orderUpdate o2.user o2.id,
       Event.adminAnalytics AdminEventKind.paymentStatusChangeEvt])

/-- Modelled from the spec (section 4.3): the allowed order-status edges of
the Order State Machine. -/
def specOrderEdge : OrderStatus → OrderStatus → Bool
  | OrderStatus.pending, OrderStatus.confirmed => true
  | OrderStatus.confirmed, OrderStatus.processing => true
  | OrderStatus.processing, OrderStatus.shipped => true
  | OrderStatus.shipped, OrderStatus.delivered => true
  | OrderStatus.pending, OrderStatus.cancelled => true
  | OrderStatus.confirmed, OrderStatus.cancelled => true
  | OrderStatus.processing, OrderStatus.cancelled => true
  | OrderStatus.delivered, OrderStatus.returned => true
  | _, _ => false

/-- Modelled from the spec (section 4.3): the allowed payment-status edges. -/
def specPaymentEdge : PaymentStatus → PaymentStatus → Bool
  | PaymentStatus.pending, PaymentStatus.paid => true
  | PaymentStatus.pending, PaymentStatus.failed => true
  | PaymentStatus.paid, PaymentStatus.refunded => true
  | PaymentStatus.paid, PaymentStatus.partiallyRefunded => true
  | _, _ => false

/-!
Interleaving model of two concurrent single-item createOrder invocations on
the same product.  Node serves each request on the event loop and suspends
at every await; the atomic steps below are the awaited storage operations of
the pipeline, in program order:
`Product.findById` + the in-memory isActive / isInStock check
(orderController.js, lines 16-37), `Order.create` (line 90), and inside
`handleNewOrder` the second `Product.findById` followed by the read-modify-
write `product.stock -= item.quantity; await product.save()`
(realtimeEvents, lines 80-85).
-/

/-- The program counter of one in-flight createOrder request.  readForDec
carries the product document as fetched by handleNewOrder's
Product.findById: the later save writes the fields computed from this
snapshot. failedStock is the 400 of the isInStock check; failedSave is the
500 raised when product.save() fails the min-0 stock validation (the
request's order record was already persisted at that point). -/
inductive ReqPhase
  | start
  | checked
  | created
  | readForDec (snap : Product)
  | done
  | failedStock
  | failedSave
deriving DecidableEq, Repr

/-- One atomic step of one request: the stock check, the order insert
(counted in orders), the product re-read, and the save of the decremented
snapshot — committed only when it passes the min-0 stock validation. -/
def phaseStep (qty : ℤ) (p : Product) (orders : Nat) (ph : ReqPhase) :
    ReqPhase × Product × Nat :=
  match ph with
  | ReqPhase.start =>
    if p.isActive && p.isInStock qty then (ReqPhase.checked, p, orders)
    else (ReqPhase.failedStock, p, orders)
  | ReqPhase.checked => (ReqPhase.created, p, orders + 1)
  | ReqPhase.created => (ReqPhase.readForDec p, p, orders)
  | ReqPhase.readForDec snap =>
    if snap.trackQuantity then
      let p2 := { snap with stock := snap.stock - qty, totalSales := snap.totalSales + qty }
      if p2.saveValid then (ReqPhase.done, p2, orders)
      else (ReqPhase.failedSave, p, orders)
    else (ReqPhase.done, p, orders)
  | ReqPhase.done => (ReqPhase.done, p, orders)
  | ReqPhase.failedStock => (ReqPhase.failedStock, p, orders)
  | ReqPhase.failedSave => (ReqPhase.failedSave, p, orders)

/-- Joint state of the shared product row, the count of persisted order
records, and the two requests. -/
structure TwoOrders where
  product : Product
  phaseA : ReqPhase
  phaseB : ReqPhase
  ordersPersisted : Nat
deriving DecidableEq, Repr

/-- Run one step of request A (true) or request B (false). -/
def twoStep (qtyA qtyB : ℤ) (s : TwoOrders) (who : Bool) : TwoOrders :=
  if who then
    let r := phaseStep qtyA s.product s.ordersPersisted s.phaseA
    { s with phaseA := r.1, product := r.2.1, ordersPersisted := r.2.2 }
  else
    let r := phaseStep qtyB s.product s.ordersPersisted s.phaseB
    { s with phaseB := r.1, product := r.2.1, ordersPersisted := r.2.2 }

/-- Run a whole schedule (an interleaving the event loop may produce). -/
def runSchedule (qtyA qtyB : ℤ) (s : TwoOrders) (sched : List Bool) : TwoOrders :=
  sched.foldl (twoStep qtyA qtyB) s

/-- The last unit of a tracked, no-backorder product. -/
def lastUnitProduct : Product :=
  { id := 1, name := "last-unit", sku := "SKU1", price := 10, stock := 1,
    lowStockThreshold := 0, trackQuantity := true, allowBackorder := false,
    isActive := true, totalSales := 0 }

/-- Recognize a low-stock alert among emitted events. -/
def isLowStockAlertEvent : Event → Bool
  | Event.lowStockAlert _ _ _ _ => true
  | _ => false

/-- Project the status history out of an update outcome. -/
def UpdateOutcome.historyOf : UpdateOutcome → Option (List HistoryEntry)
  | UpdateOutcome.notFound => none
  | UpdateOutcome.updated o => some o.statusHistory

/-- Project the order status out of an update outcome. -/
def UpdateOutcome.statusOf : UpdateOutcome → Option OrderStatus
  | UpdateOutcome.notFound => none
  | UpdateOutcome.updated o => some o.orderStatus

/-- The per-line-item subtotal: sum of snapshot unit price times quantity. -/
def itemsSubtotal : List OrderItem → ℚ
  | [] => 0
  | it :: rest => it.price * (it.quantity : ℚ) + itemsSubtotal rest

/-! Concrete fixtures used by the closed theorems and witnesses. -/

/-- An active tracked product, amply stocked. -/
def demoProduct : Product :=
  { id := 7, name := "widget", sku := "W1", price := 10, stock := 50,
    lowStockThreshold := 5, trackQuantity := true, allowBackorder := false,
    isActive := true, totalSales := 0 }

/-- The SAVE10 coupon: 10 percent, minimum order 50, maximum discount 20. -/
def demoCoupon : Coupon :=
  { code := "SAVE10", discountType := DiscountType.percentage, discountValue := 10,
    minimumOrderAmount := 50, maximumDiscountAmount := some 20, usageLimit := none,
    usageLimitPerUser := none, usedCount := 0, isActive := true, startDate := 0,
    endDate := 100, applicableProducts := [], applicableCategories := [],
    excludedProducts := [], excludedCategories := [], applicableUsers := [],
    usageHistory := [] }

/-- A store holding the demo product and the SAVE10 coupon. -/
def couponDB : DB :=
  { products := [demoProduct], coupons := [demoCoupon], orders := [] }

/-- A request for two widgets applying SAVE10. -/
def couponReq : OrderRequest :=
  { userId := 3, items := [⟨7, 2⟩], couponCode := some "SAVE10", notes := none }

/-- A cheap product whose one-unit order stays below SAVE10's minimum. -/
def cheapProduct : Product :=
  { id := 8, name := "trinket", sku := "T1", price := 40, stock := 50,
    lowStockThreshold := 5, trackQuantity := true, allowBackorder := false,
    isActive := true, totalSales := 0 }

/-- A store holding the cheap product and the SAVE10 coupon. -/
def belowMinDB : DB :=
  { products := [cheapProduct], coupons := [demoCoupon], orders := [] }

/-- A one-trinket request applying SAVE10: order amount 40, minimum 50. -/
def belowMinReq : OrderRequest :=
  { userId := 3, items := [⟨8, 1⟩], couponCode := some "SAVE10", notes := none }

/-- A coupon whose maximumDiscountAmount is present but 0, no minimum. -/
def maxZeroCoupon : Coupon :=
  { demoCoupon with
    code := "MAXZERO",
    minimumOrderAmount := 0,
    maximumDiscountAmount := some 0 }

/-- A store with only the demo product, no coupons. -/
def demoDB : DB := { products := [demoProduct], coupons := [], orders := [] }

/-- A plain two-widget request without a coupon. -/
def demoReq : OrderRequest :=
  { userId := 3, items := [⟨7, 2⟩], couponCode := none, notes := none }

/-- The order that createOrder creates from demoDB and demoReq. -/
def demoOrder : OrderRec :=
  { id := 1, user := 3, items := [⟨7, "widget", 10, 2, "W1"⟩], subtotal := 20,
    taxAmount := 0, shippingAmount := 0, discountAmount := 0, totalAmount := 20,
    couponInfo := none, paymentStatus := PaymentStatus.pending,
    orderStatus := OrderStatus.pending, statusHistory := [], paymentId := none,
    deliveredAt := none, cancelledAt := none, cancellationReason := none,
    trackingNumber := none, shippingCarrier := none, notes := none }

/-- A delivered, refunded order on file. -/
def deliveredOrder : OrderRec :=
  { id := 42, user := 9, items := [], subtotal := 0, taxAmount := 0,
    shippingAmount := 0, discountAmount := 0, totalAmount := 0, couponInfo := none,
    paymentStatus := PaymentStatus.refunded, orderStatus := OrderStatus.delivered,
    statusHistory := [⟨OrderStatus.delivered, 1, "delivered earlier"⟩],
    paymentId := none, deliveredAt := some 1, cancelledAt := none,
    cancellationReason := none, trackingNumber := none, shippingCarrier := none,
    notes := none }

/-- A store holding only the delivered order. -/
def statusDB : DB := { products := [], coupons := [], orders := [deliveredOrder] }

/-- A product with lowStockThreshold 10 for the alert scenario. -/
def thresholdTenProduct : Product :=
  { id := 2, name := "gadget", sku := "G1", price := 25, stock := 7,
    lowStockThreshold := 10, trackQuantity := true, allowBackorder := false,
    isActive := true, totalSales := 0 }

/-- A product that does not track quantity. -/
def untrackedProduct : Product :=
  { id := 9, name := "ebook", sku := "E1", price := 15, stock := 5,
    lowStockThreshold := 2, trackQuantity := false, allowBackorder := false,
    isActive := true, totalSales := 0 }

/-- An order of two untracked items. -/
def untrackedOrder : OrderRec :=
  { demoOrder with
    id := 2,
    items := [⟨9, "ebook", 15, 2, "E1"⟩],
    subtotal := 30,
    totalAmount := 30 }

/-- A tracked product with backorder allowed and one unit left. -/
def backorderProduct : Product :=
  { id := 11, name := "preorder", sku := "P1", price := 60, stock := 1,
    lowStockThreshold := 3, trackQuantity := true, allowBackorder := true,
    isActive := true, totalSales := 0 }

/-- An order of three backorderable items. -/
def backorderOrder : OrderRec :=
  { demoOrder with
    id := 3,
    items := [⟨11, "preorder", 60, 3, "P1"⟩],
    subtotal := 180,
    totalAmount := 180 }

/-- An order of one backorderable item. -/
def backorderOneOrder : OrderRec :=
  { demoOrder with
    id := 4,
    items := [⟨11, "preorder", 60, 1, "P1"⟩],
    subtotal := 60,
    totalAmount := 60 }

/-!
Theorems.
-/

/-- C1: the claim says the stock decrement of order creation is an atomic
conditional update, so that with stock 1 and two concurrent quantity-1
createOrder calls exactly one succeeds, leaving stock 0, and the other fails
with InsufficientStock.  The code instead checks isInStock at the start of
createOrder and decrements later inside handleNewOrder with a plain
read-modify-write on the document fetched there.  Under the interleaving in
which both requests fetch the product before either save commits (first
conjunct block), the second save overwrites the first — a lost update: both
requests finish successfully, both order records are persisted, yet the row
records a single sale (totalSales 1) and a single decrement (stock 1 → 0),
so two units were sold for one unit of inventory.  Only the fully
sequential schedule (second conjunct block) matches the claimed outcome of
one success, one InsufficientStock failure and final stock 0 with one
persisted order. -/
theorem C1_oversell_interleaving :
    ((runSchedule 1 1 ⟨lastUnitProduct, ReqPhase.start, ReqPhase.start, 0⟩
        [true, false, true, false, true, false, true, false]).phaseA = ReqPhase.done ∧
     (runSchedule 1 1 ⟨lastUnitProduct, ReqPhase.start, ReqPhase.start, 0⟩
        [true, false, true, false, true, false, true, false]).phaseB = ReqPhase.done ∧
     (runSchedule 1 1 ⟨lastUnitProduct, ReqPhase.start, ReqPhase.start, 0⟩
        [true, false, true, false, true, false, true, false]).ordersPersisted = 2 ∧
     (runSchedule 1 1 ⟨lastUnitProduct, ReqPhase.start, ReqPhase.start, 0⟩
        [true, false, true, false, true, false, true, false]).product.stock = 0 ∧
     (runSchedule 1 1 ⟨lastUnitProduct, ReqPhase.start, ReqPhase.start, 0⟩
        [true, false, true, false, true, false, true, false]).product.totalSales = 1) ∧
    ((runSchedule 1 1 ⟨lastUnitProduct, ReqPhase.start, ReqPhase.start, 0⟩
        [true, true, true, true, false]).phaseA = ReqPhase.done ∧
     (runSchedule 1 1 ⟨lastUnitProduct, ReqPhase.start, ReqPhase.start, 0⟩
        [true, true, true, true, false]).phaseB = ReqPhase.failedStock ∧
     (runSchedule 1 1 ⟨lastUnitProduct, ReqPhase.start, ReqPhase.start, 0⟩
        [true, true, true, true, false]).ordersPersisted = 1 ∧
     (runSchedule 1 1 ⟨lastUnitProduct, ReqPhase.start, ReqPhase.start, 0⟩
        [true, true, true, true, false]).product.stock = 0) := by
  decide

/-- C2: the claim says a status change outside the allowed edge set fails
with InvalidTransition and leaves the status fields and history unchanged.
The code performs no transition check: on the delivered order, the
non-edge request delivered → pending succeeds, the order status becomes
pending, the status history is untouched (and no InvalidTransition outcome
exists in the controller), and likewise the non-edge payment request
refunded → pending succeeds. -/
theorem C2_invalid_transitions_accepted :
    specOrderEdge OrderStatus.delivered OrderStatus.pending = false ∧
    (updateOrderStatus statusDB 42 ⟨OrderStatus.pending, none, none, none⟩ 5).1 =
      UpdateOutcome.updated { deliveredOrder with orderStatus := OrderStatus.pending } ∧
    ((updateOrderStatus statusDB 42 ⟨OrderStatus.pending, none, none, none⟩ 5).1).historyOf =
      some deliveredOrder.statusHistory ∧
    specPaymentEdge PaymentStatus.refunded PaymentStatus.pending = false ∧
    (updatePaymentStatus statusDB 42 PaymentStatus.pending none).1 =
      UpdateOutcome.updated { deliveredOrder with paymentStatus := PaymentStatus.pending } := by
  decide

/-- C8: the low-stock alert of handleStockChange is emitted exactly when the
mutation crossed the threshold (old stock strictly above, new stock at or
below); in particular 12 → 7 with threshold 10 fires and the subsequent
7 → 4 does not fire again. -/
theorem C8_low_stock_alert_edge_triggered :
    (∀ (pid : Nat) (oldS newS : ℤ) (p : Product),
      (handleStockChange pid oldS newS p).any isLowStockAlertEvent = true ↔
        (newS ≤ p.lowStockThreshold ∧ p.lowStockThreshold < oldS)) ∧
    (handleStockChange 2 12 7 thresholdTenProduct).any isLowStockAlertEvent = true ∧
    (handleStockChange 2 7 4 thresholdTenProduct).any isLowStockAlertEvent = false := by
  refine ⟨fun pid oldS newS p => ?_, by decide, by decide⟩
  by_cases h : newS ≤ p.lowStockThreshold ∧ p.lowStockThreshold < oldS <;>
    simp [handleStockChange, isLowStockAlertEvent, h]

/-- C4: the claim says an otherwise-valid coupon on an order amount below
minimumOrderAmount makes createOrder fail with the distinct
BelowMinimumOrder / InvalidCoupon outcome.  In the code calculateDiscount
silently returns 0 for the below-minimum order (no distinct outcome exists),
the coupon passes canUserUse, and the call then dies on the unrelated
usage-history validation failure with the generic internal error — not with
the invalid-coupon outcome; no order is created. -/
theorem C4_below_minimum_silent_zero :
    demoCoupon.calculateDiscount 40 5 = 0 ∧
    (createOrder belowMinDB belowMinReq 5 1).outcome = CreateOrderOutcome.internalError ∧
    (createOrder belowMinDB belowMinReq 5 1).outcome ≠ CreateOrderOutcome.invalidCoupon ∧
    (createOrder belowMinDB belowMinReq 5 1).db.orders = [] := by
  refine ⟨by decide, ?_, ?_, ?_⟩ <;> decide

/-- C5, counterexample: the claim says the discount is capped at
maximumDiscountAmount whenever it is present.  With a present maximum of 0
the JavaScript truthiness test `this.maximumDiscountAmount &&` skips the
cap: the 10-percent coupon on order amount 300 yields discount 30, not a
discount bounded by the present maximum 0. -/
theorem C5_max_zero_counterexample :
    maxZeroCoupon.maximumDiscountAmount = some 0 ∧
    maxZeroCoupon.calculateDiscount 300 5 = 30 ∧
    ¬(maxZeroCoupon.calculateDiscount 300 5 ≤ 0) := by
  refine ⟨rfl, ?_, ?_⟩ <;>
    norm_num [Coupon.calculateDiscount, Coupon.isValid, maxZeroCoupon, demoCoupon]

/-- C10, counterexample: the claim says a product with trackQuantity false
still has its stock decremented by the requested quantity.  handleNewOrder
skips products whose trackQuantity is false entirely: ordering two units of
the untracked product leaves its stock at 5 instead of 3. -/
theorem C10_untracked_not_decremented :
    (handleNewOrder [untrackedProduct] untrackedOrder).1 = [untrackedProduct] ∧
    untrackedProduct.stock = 5 ∧
    untrackedProduct.stock - 2 ≠ untrackedProduct.stock := by
  decide

/-- The usage entry pushed by createOrder has a null order id, so the
mutated coupon can never pass save validation. -/
theorem recordUsage_not_saveValid (c : Coupon) (u : Nat) (d : ℚ) (now : ℤ) :
    (c.recordUsage u d now).saveValid = false := by
  simp [Coupon.recordUsage, Coupon.saveValid, UsageEntry.saveValid, List.all_append]

/-- C3: the claim says coupon usage is recorded only after the order record
has been persisted, and that a failed order persistence leaves the coupon
unchanged.  In the code the coupon mutation and Coupon.save() happen before
Order.create: whenever an eligible coupon is applied, the one persistence
action attempted is the coupon save (which then fails validation), no order
persistence is ever reached, the store is unchanged, and the call reports
the internal error. -/
theorem C3_coupon_recorded_before_commit_point
    (db : DB) (req : OrderRequest) (now : ℤ) (nid : Nat) (code : String) (coupon : Coupon)
    (hitems : ∃ pr, buildItems db req.items = Except.ok pr)
    (hcode : req.couponCode = some code)
    (hfind : db.findCouponByCode code = some coupon)
    (huse : coupon.canUserUse req.userId now = true) :
    (createOrder db req now nid).trace = [StepAction.couponSaveAttempt] ∧
    StepAction.orderPersist ∉ (createOrder db req now nid).trace ∧
    (createOrder db req now nid).db = db ∧
    (createOrder db req now nid).outcome = CreateOrderOutcome.internalError := by
  obtain ⟨⟨sub, its⟩, hb⟩ := hitems
  simp only [createOrder, hb, hcode, hfind, huse, recordUsage_not_saveValid,
    Bool.not_true, Bool.false_eq_true, if_false, Bool.not_false, if_true]
  refine ⟨?_, ?_, ?_, ?_⟩ <;> trivial

/-- C3, witness: the eligible SAVE10 request on the demo store. -/
theorem C3_witness :
    (createOrder couponDB couponReq 5 1).trace = [StepAction.couponSaveAttempt] ∧
    StepAction.orderPersist ∉ (createOrder couponDB couponReq 5 1).trace ∧
    (createOrder couponDB couponReq 5 1).db = couponDB ∧
    (createOrder couponDB couponReq 5 1).outcome = CreateOrderOutcome.internalError :=
  C3_coupon_recorded_before_commit_point couponDB couponReq 5 1 "SAVE10" demoCoupon
    ⟨_, rfl⟩ rfl rfl rfl

/-- C6: for every createOrder invocation whose coupon passes the eligibility
check, the pushed usage entry carries a null order id, the coupon therefore
fails save validation, createOrder returns the internal error, and no order
is created — no order applying a coupon can ever be created successfully. -/
theorem C6_coupon_orders_never_created
    (db : DB) (req : OrderRequest) (now : ℤ) (nid : Nat) (code : String) (coupon : Coupon)
    (d : ℚ)
    (hitems : ∃ pr, buildItems db req.items = Except.ok pr)
    (hcode : req.couponCode = some code)
    (hfind : db.findCouponByCode code = some coupon)
    (huse : coupon.canUserUse req.userId now = true) :
    (⟨req.userId, none, d, now⟩ : UsageEntry) ∈ (coupon.recordUsage req.userId d now).usageHistory ∧
    (coupon.recordUsage req.userId d now).saveValid = false ∧
    (createOrder db req now nid).outcome = CreateOrderOutcome.internalError ∧
    (createOrder db req now nid).db.orders = db.orders := by
  obtain ⟨⟨sub, its⟩, hb⟩ := hitems
  refine ⟨by simp [Coupon.recordUsage], recordUsage_not_saveValid coupon req.userId d now, ?_, ?_⟩ <;>
    simp only [createOrder, hb, hcode, hfind, huse, recordUsage_not_saveValid,
      Bool.not_true, Bool.false_eq_true, if_false, Bool.not_false, if_true]

/-- C6, witness: the eligible SAVE10 request on the demo store. -/
theorem C6_witness :
    (⟨3, none, 20, 5⟩ : UsageEntry) ∈ (demoCoupon.recordUsage 3 20 5).usageHistory ∧
    (demoCoupon.recordUsage 3 20 5).saveValid = false ∧
    (createOrder couponDB couponReq 5 1).outcome = CreateOrderOutcome.internalError ∧
    (createOrder couponDB couponReq 5 1).db.orders = couponDB.orders :=
  C6_coupon_orders_never_created couponDB couponReq 5 1 "SAVE10" demoCoupon 20
    ⟨_, rfl⟩ rfl rfl rfl

/-- Modelled from the spec's words (section 4.2), with the cap clause
amended as the code forces: the base discount is orderAmount times value
over 100 for a percentage coupon or the flat value for a fixed coupon,
capped at maximumDiscountAmount when present and nonzero, then capped at
the order amount. -/
def specDiscountAmended (c : Coupon) (orderAmount : ℚ) : ℚ :=
  let base :=
    match c.discountType with
    | DiscountType.percentage => orderAmount * c.discountValue / 100
    | DiscountType.fixed => c.discountValue
  let capped :=
    match c.maximumDiscountAmount with
    | none => base
    | some m => if m ≠ 0 then min base m else base
  min capped orderAmount

/-- C5, amended: for every coupon that is valid, has no product or category
restriction and meets the minimum order amount, calculateDiscount computes
the spec formula with the cap applied only when maximumDiscountAmount is
present and nonzero, and the discount never exceeds the order amount. -/
theorem C5_discount_formula (c : Coupon) (amt : ℚ) (now : ℤ)
    (hv : c.isValid now = true)
    (hp : c.applicableProducts = [])
    (hc : c.applicableCategories = [])
    (hm : c.minimumOrderAmount ≤ amt) :
    c.calculateDiscount amt now = specDiscountAmended c amt ∧
    c.calculateDiscount amt now ≤ amt := by
  have hmain : c.calculateDiscount amt now = specDiscountAmended c amt := by
    simp only [Coupon.calculateDiscount, specDiscountAmended, hv, hp, hc,
      Bool.not_true, Bool.false_eq_true, if_false, List.length_nil, lt_irrefl,
      or_self, if_neg (not_lt.mpr hm)]
    rcases c.maximumDiscountAmount with _ | m
    · rfl
    · by_cases hm0 : m = 0
      · simp [hm0]
      · by_cases hlt : m < (match c.discountType with
          | DiscountType.percentage => amt * c.discountValue / 100
          | DiscountType.fixed => c.discountValue)
        · simp [hm0, hlt, min_eq_right (le_of_lt hlt)]
        · simp [hm0, hlt, min_eq_left (not_lt.mp hlt)]
  refine ⟨hmain, ?_⟩
  rw [hmain]
  simp only [specDiscountAmended]
  exact min_le_right _ _

/-- C5, witness: SAVE10 (10 percent, minimum 50, maximum 20) on order
amount 300 gives discount 20 and final amount 280. -/
theorem C5_witness :
    demoCoupon.calculateDiscount 300 5 = specDiscountAmended demoCoupon 300 ∧
    demoCoupon.calculateDiscount 300 5 ≤ 300 ∧
    demoCoupon.calculateDiscount 300 5 = 20 ∧
    (300 : ℚ) - demoCoupon.calculateDiscount 300 5 = 280 := by
  have h := C5_discount_formula demoCoupon 300 5 (by decide) rfl rfl (by decide)
  have h20 : demoCoupon.calculateDiscount 300 5 = 20 := by
    norm_num [Coupon.calculateDiscount, Coupon.isValid, demoCoupon]
  exact ⟨h.1, h.2, h20, by rw [h20]; norm_num⟩

/-- C7: the claim says every accepted status transition appends exactly one
statusHistory entry.  updateOrderStatus writes through findByIdAndUpdate,
which runs no document middleware: the returned order carries the requested
status but an unchanged status history, while the schema's own pre-save hook
(orderStatusHistoryHook) would have appended exactly one entry. -/
theorem C7_status_update_appends_nothing
    (db : DB) (oid : Nat) (req : UpdateStatusRequest) (now : ℤ) (o : OrderRec)
    (h : db.findOrder oid = some o) :
    ((updateOrderStatus db oid req now).1).historyOf = some o.statusHistory ∧
    ((updateOrderStatus db oid req now).1).statusOf = some req.orderStatus ∧
    (orderStatusHistoryHook { o with orderStatus := req.orderStatus } true false
        now).statusHistory =
      o.statusHistory ++ [⟨req.orderStatus, now, "Order status changed"⟩] := by
  simp [updateOrderStatus, h, UpdateOutcome.historyOf, UpdateOutcome.statusOf,
    orderStatusHistoryHook]

/-- C7, witness: the accepted edge delivered → returned on the stored
delivered order still appends nothing. -/
theorem C7_witness :
    ((updateOrderStatus statusDB 42 ⟨OrderStatus.returned, none, none, none⟩ 7).1).historyOf =
      some deliveredOrder.statusHistory ∧
    ((updateOrderStatus statusDB 42 ⟨OrderStatus.returned, none, none, none⟩ 7).1).statusOf =
      some OrderStatus.returned ∧
    (orderStatusHistoryHook { deliveredOrder with orderStatus := OrderStatus.returned } true false
        7).statusHistory =
      deliveredOrder.statusHistory ++ [⟨OrderStatus.returned, 7, "Order status changed"⟩] :=
  C7_status_update_appends_nothing statusDB 42 ⟨OrderStatus.returned, none, none, none⟩ 7
    deliveredOrder rfl

/-- An item-loop failure is never a created outcome. -/
theorem toOutcome_ne_created (e : ItemError) (o : OrderRec) :
    e.toOutcome ≠ CreateOrderOutcome.created o := by
  cases e <;> simp [ItemError.toOutcome]

/-- The accumulated subtotal of the item loop equals the sum over the
captured snapshot items of price times quantity. -/
theorem buildItems_subtotal (db : DB) :
    ∀ (l : List ReqItem) (sub : ℚ) (its : List OrderItem),
      buildItems db l = Except.ok (sub, its) → sub = itemsSubtotal its := by
  intro l
  induction l with
  | nil =>
    intro sub its h
    simp only [buildItems, Except.ok.injEq, Prod.mk.injEq] at h
    rw [← h.1, ← h.2]
    rfl
  | cons it rest ih =>
    intro sub its h
    simp only [buildItems] at h
    split at h
    · exact absurd h (by simp)
    · split at h
      · exact absurd h (by simp)
      · split at h
        · exact absurd h (by simp)
        · split at h
          · exact absurd h (by simp)
          · rename_i p hp hact hstock s2 its2 hrest
            simp only [Except.ok.injEq, Prod.mk.injEq] at h
            obtain ⟨hs, hi⟩ := h
            rw [← hs, ← hi]
            simp only [itemsSubtotal]
            rw [ih s2 its2 hrest]

/-- Anatomy of a successful finishOrder: the created order is the record
built from the computed totals, and it passed schema validation. -/
theorem finishOrder_created (db : DB) (req : OrderRequest) (nid : Nat)
    (sub : ℚ) (its : List OrderItem) (d : ℚ) (ci : Option CouponInfo)
    (cc : Option String) (tr : List StepAction) (o : OrderRec)
    (h : (finishOrder db req nid sub its d ci cc tr).outcome = CreateOrderOutcome.created o) :
    o.items = its ∧ o.subtotal = sub ∧ o.taxAmount = 0 ∧ o.shippingAmount = 0 ∧
    o.discountAmount = d ∧ o.totalAmount = sub + 0 + 0 - d ∧ 0 ≤ o.totalAmount := by
  simp only [finishOrder] at h
  split at h
  · exact absurd h (by simp)
  · rename_i hok
    split at h
    · exact absurd h (by simp)
    · simp only [CreateOrderOutcome.created.injEq] at h
      rw [← h]
      simp only [Bool.not_eq_true', Bool.not_eq_false] at hok
      simp only [OrderRec.schemaOk, Bool.and_eq_true, decide_eq_true_eq] at hok
      exact ⟨rfl, rfl, rfl, rfl, rfl, rfl, hok.2⟩

/-- C9: for every order created by createOrder, the subtotal equals the sum
over line items of snapshot price times quantity, and the total equals
subtotal plus tax plus shipping minus discount and is nonnegative. -/
theorem C9_order_totals (db : DB) (req : OrderRequest) (now : ℤ) (nid : Nat) (o : OrderRec)
    (h : (createOrder db req now nid).outcome = CreateOrderOutcome.created o) :
    o.subtotal = itemsSubtotal o.items ∧
    o.totalAmount = o.subtotal + o.taxAmount + o.shippingAmount - o.discountAmount ∧
    0 ≤ o.totalAmount := by
  simp only [createOrder] at h
  split at h
  · exact absurd h (toOutcome_ne_created _ _)
  · rename_i pr hb
    split at h
    · obtain ⟨hits, hsub, htax, hship, hdisc, htot, hnn⟩ :=
        finishOrder_created db req nid pr.1 pr.2 0 none none [] o h
      refine ⟨?_, ?_, hnn⟩
      · rw [hsub, hits, buildItems_subtotal db req.items pr.1 pr.2 (by rw [hb])]
      · rw [htot, hsub, htax, hship, hdisc]
    · split at h
      · exact absurd h (by simp)
      · split at h
        · exact absurd h (by simp)
        · split at h
          · exact absurd h (by simp)
          · obtain ⟨hits, hsub, htax, hship, hdisc, htot, hnn⟩ :=
              finishOrder_created _ req nid pr.1 pr.2 _ _ _ _ o h
            refine ⟨?_, ?_, hnn⟩
            · rw [hsub, hits, buildItems_subtotal db req.items pr.1 pr.2 (by rw [hb])]
            · rw [htot, hsub, htax, hship, hdisc]

/-- C9, witness: the plain two-widget order is created with subtotal 20,
total 20 and the claimed equalities. -/
theorem C9_witness :
    (createOrder demoDB demoReq 5 1).outcome = CreateOrderOutcome.created demoOrder ∧
    demoOrder.subtotal = itemsSubtotal demoOrder.items ∧
    demoOrder.totalAmount =
      demoOrder.subtotal + demoOrder.taxAmount + demoOrder.shippingAmount -
        demoOrder.discountAmount ∧
    0 ≤ demoOrder.totalAmount := by
  have h : (createOrder demoDB demoReq 5 1).outcome = CreateOrderOutcome.created demoOrder := by
    norm_num [createOrder, buildItems, finishOrder, demoDB, demoReq, demoProduct,
      demoOrder, DB.findProduct, Product.isInStock, OrderRec.schemaOk, OrderItem.schemaOk,
      handleNewOrder, handleNewOrderItems, Product.saveValid, updateProductIn,
      handleStockChange]
  have hc := C9_order_totals demoDB demoReq 5 1 demoOrder h
  exact ⟨h, hc.1, hc.2.1, hc.2.2⟩

/-- C10, amended: for a line item whose product has trackQuantity false or
allowBackorder true, the isInStock reservation check always succeeds.  When
trackQuantity is false the stock is not mutated at all.  When trackQuantity
is true the decrement by the requested quantity is attempted
unconditionally, but it persists only when the resulting stock is
nonnegative; otherwise the min-0 stock validation makes product.save()
throw (third component true), leaving the stock unchanged. -/
theorem C10_reservation_and_decrement (p : Product) (q : ℤ) (o : OrderRec)
    (hitems : o.items = [⟨p.id, p.name, p.price, q, p.sku⟩])
    (hd : p.trackQuantity = false ∨ p.allowBackorder = true) :
    p.isInStock q = true ∧
    (p.trackQuantity = false →
      (handleNewOrder [p] o).1 = [p] ∧ (handleNewOrder [p] o).2.2 = false) ∧
    (p.trackQuantity = true → 0 ≤ p.stock - q →
      (handleNewOrder [p] o).1 =
        [{ p with stock := p.stock - q, totalSales := p.totalSales + q }] ∧
      (handleNewOrder [p] o).2.2 = false) ∧
    (p.trackQuantity = true → p.stock - q < 0 →
      (handleNewOrder [p] o).1 = [p] ∧ (handleNewOrder [p] o).2.2 = true) := by
  refine ⟨?_, ?_, ?_, ?_⟩
  · rcases hd with h | h <;> simp [Product.isInStock, h]
  · intro ht
    simp [handleNewOrder, handleNewOrderItems, hitems, ht]
  · intro ht hnn
    simp [handleNewOrder, handleNewOrderItems, hitems, ht, Product.saveValid, hnn,
      updateProductIn]
  · intro ht hneg
    simp [handleNewOrder, handleNewOrderItems, hitems, ht, Product.saveValid,
      not_le.mpr hneg]

/-- C10, witness: on the backorderable one-unit product, a quantity-3 order
passes the reservation check but its decrement fails the save validation
and the stock stays 1, while a quantity-1 order passes and persists
stock 0. -/
theorem C10_witness :
    backorderProduct.isInStock 3 = true ∧
    (handleNewOrder [backorderProduct] backorderOrder).1 = [backorderProduct] ∧
    (handleNewOrder [backorderProduct] backorderOrder).2.2 = true ∧
    backorderProduct.isInStock 1 = true ∧
    (handleNewOrder [backorderProduct] backorderOneOrder).1 =
      [{ backorderProduct with
          stock := backorderProduct.stock - 1,
          totalSales := backorderProduct.totalSales + 1 }] ∧
    (handleNewOrder [backorderProduct] backorderOneOrder).2.2 = false := by
  have h3 := C10_reservation_and_decrement backorderProduct 3 backorderOrder rfl (Or.inr rfl)
  have h1 := C10_reservation_and_decrement backorderProduct 1 backorderOneOrder rfl (Or.inr rfl)
  exact ⟨h3.1, (h3.2.2.2 rfl (by decide)).1, (h3.2.2.2 rfl (by decide)).2,
    h1.1, (h1.2.2.1 rfl (by decide)).1, (h1.2.2.1 rfl (by decide)).2⟩

end ECommerce
